import Mathlib

/-!
Verification of the posts domain of the yatube blogging application:
the data model and command contracts exercised by
`posts/tests/test_forms.py`, and the schema declared by
`posts/migrations/0006_follow.py`.

The repository slice under review contains only the test module and the
migration; the form/command handlers themselves (`post_create`,
`post_edit`, `add_comment`) and the migration executor are external to
the slice, so they are modelled here from the specification, as marked
in their doc comments.  The migration declaration and the test helper
`unexpected_posts_not_changed` are embedded from the source directly.
-/

namespace Yatube

/-- A user identity, keyed by its unique username. -/
abbrev UserId := String

/-- A caller of an HTTP command: `none` is an anonymous client,
`some u` a client authenticated as user `u`. -/
abbrev Caller := Option UserId

/-- A row of the Group table, as created in `PostFormsTests.setUp`. -/
structure Group where
  id : Nat
  title : String
  slug : String
  description : String
deriving DecidableEq, Repr

/-- A row of the Post table: text, creation timestamp `pub_date`,
required author, optional group reference, optional image path. -/
structure Post where
  id : Nat
  text : String
  pub_date : Nat
  author : UserId
  group : Option Nat
  image : Option String
deriving DecidableEq, Repr

/-- A row of the Comment table: text, creation timestamp, required
author, and a reference to exactly one Post. -/
structure Comment where
  id : Nat
  text : String
  pub_date : Nat
  author : UserId
  post : Nat
deriving DecidableEq, Repr

/-- The entity store the command handlers mutate.  `nextPostId` and
`nextCommentId` model the auto-increment primary keys; `now` is the
clock used for `pub_date` at creation time.  Rows are listed in
insertion order, which is how `Post.objects.all()` enumerates them. -/
structure Store where
  posts : List Post
  comments : List Comment
  nextPostId : Nat
  nextCommentId : Nat
  now : Nat
deriving DecidableEq, Repr

/-- The error taxonomy of the command boundary. -/
inductive CmdError
  | authorization
  | notFound
deriving DecidableEq, Repr

/-- A store is well formed when every stored primary key is below the
corresponding auto-increment counter. -/
def Store.WF (s : Store) : Prop :=
  (∀ p ∈ s.posts, p.id < s.nextPostId) ∧
  (∀ c ∈ s.comments, c.id < s.nextCommentId)

/-- Modelled from the spec: media storage places an uploaded image named
`n` at path `posts/n` (the concrete scenario maps `small.gif` to
`posts/small.gif`). -/
def storedImagePath (n : String) : String := "posts/" ++ n

/-- Modelled from the spec: `create_post(caller, text, group?, image?) ->
Post | AuthorizationError`.  Requires an authenticated caller; on success
inserts exactly one Post row with `author = caller`, `pub_date = now`,
and returns it; an anonymous caller performs no mutation and the failure
is represented as a value, never an uncaught fault. -/
def create_post (caller : Caller) (text : String) (group : Option Nat)
    (image : Option String) (s : Store) : Store × Except CmdError Post :=
  match caller with
  | none => (s, Except.error CmdError.authorization)
  | some u =>
    let p : Post :=
      ⟨s.nextPostId, text, s.now, u, group, image.map storedImagePath⟩
    (⟨s.posts ++ [p], s.comments, s.nextPostId + 1, s.nextCommentId, s.now⟩,
      Except.ok p)

/-- Modelled from the spec: `edit_post(caller, post_id, text, group?) ->
Post | NotFoundError | AuthorizationError`.  Requires the caller to be
the Post's author; overwrites `text` and `group` only, leaving
`pub_date`, `author` and `image` untouched; every other Post row is
unchanged afterward.  Anonymous and non-author callers perform no
mutation. -/
def edit_post (caller : Caller) (post_id : Nat) (text : String)
    (group : Option Nat) (s : Store) : Store × Except CmdError Post :=
  match caller with
  | none => (s, Except.error CmdError.authorization)
  | some u =>
    match s.posts.find? (fun p => p.id == post_id) with
    | none => (s, Except.error CmdError.notFound)
    | some p =>
      if p.author = u then
        let p2 : Post := ⟨p.id, text, p.pub_date, p.author, group, p.image⟩
        (⟨s.posts.map (fun q => if q.id == post_id then p2 else q),
            s.comments, s.nextPostId, s.nextCommentId, s.now⟩,
          Except.ok p2)
      else (s, Except.error CmdError.authorization)

/-- Modelled from the spec: `add_comment(caller, post_id, text) ->
Comment | AuthorizationError`.  Requires an authenticated caller;
inserts exactly one Comment row referencing `post_id` with
`author = caller`; anonymous callers cause zero mutation. -/
def add_comment (caller : Caller) (post_id : Nat) (text : String)
    (s : Store) : Store × Except CmdError Comment :=
  match caller with
  | none => (s, Except.error CmdError.authorization)
  | some u =>
    let c : Comment := ⟨s.nextCommentId, text, s.now, u, post_id⟩
    (⟨s.posts, s.comments ++ [c], s.nextPostId, s.nextCommentId + 1, s.now⟩,
      Except.ok c)

/-- One step of the maximum-key scan behind `objects.latest(..)`. -/
def latestStep (key : α → Nat) (acc : Option α) (p : α) : Option α :=
  match acc with
  | none => some p
  | some q => if key q < key p then some p else some q

/-- The row with the largest key, `none` on an empty table. -/
def latestBy (key : α → Nat) (l : List α) : Option α :=
  l.foldl (latestStep key) none

/-- `Post.objects.latest(..)` keyed on id: the row with the largest
primary key, `none` on an empty table. -/
def latestPost (ps : List Post) : Option Post :=
  latestBy (fun p => p.id) ps

/-- `Comment.objects.latest(..)` keyed on id. -/
def latestComment (cs : List Comment) : Option Comment :=
  latestBy (fun c => c.id) cs

/-- The reverse relation `group.posts`: all Post rows referencing the
group `g`. -/
def group_posts (g : Nat) (s : Store) : List Post :=
  s.posts.filter (fun p => p.group == some g)

/-- Field-by-field agreement of two Post rows on id, text, pub_date,
author, group and image, exactly the six assertions of
`unexpected_posts_not_changed`. -/
def postsAgree (a b : Post) : Bool :=
  a.id == b.id && a.text == b.text && a.pub_date == b.pub_date &&
    a.author == b.author && a.group == b.group && a.image == b.image

/-- Embedded from `PostFormsTests.unexpected_posts_not_changed`: zips the
snapshot taken before the command with the rows queried after it and
asserts the six field equalities on every zipped pair. -/
def unexpected_posts_not_changed (posts_before posts_after : List Post) : Bool :=
  (List.zip posts_before posts_after).all (fun pq => postsAgree pq.1 pq.2)

/-- The group created in `PostFormsTests.setUp`. -/
def setUpGroup : Group :=
  ⟨1, "Тестовая группа", "test-slug", "Тестовое описание"⟩

/-- The 15 posts created in `PostFormsTests.setUp`: authored by "auth",
all in the setUp group. -/
def setUpPosts : List Post :=
  (List.range 15).map (fun i =>
    ⟨i + 1, "Текстовый пост №" ++ toString i, 0, "auth", some setUpGroup.id, none⟩)

/-- The entity store after `PostFormsTests.setUp`. -/
def setUpStore : Store := ⟨setUpPosts, [], 16, 1, 0⟩

/-- The new group of `test_editing_post_in_db`. -/
def newGroup : Group :=
  ⟨2, "Новая тестовая группа", "test-slug-new", "Тестовое описание новой группы"⟩

/-- The post created inside `test_editing_post_in_db` before the edit:
authored by "auth" in the setUp group. -/
def editTargetPost : Post :=
  ⟨16, "Тестовый пост", 0, "auth", some setUpGroup.id, none⟩

/-- The store of `test_editing_post_in_db` just before the edit request:
the setUp posts plus the freshly created target post. -/
def editScenarioStore : Store := ⟨setUpPosts ++ [editTargetPost], [], 17, 1, 0⟩

/-- A store that already holds a post whose text coincides with the text
an anonymous client is about to submit. -/
def anonTextStore : Store :=
  ⟨[⟨1, "Тестовый пост от guest_client", 0, "auth", none, none⟩], [], 2, 1, 0⟩

/-- The store of `CommentFormsTests.setUp`: the user "Author" and one
post of theirs, no comments yet. -/
def commentScenarioStore : Store :=
  ⟨[⟨1, "Тестовый пост", 0, "Author", none, none⟩], [], 2, 1, 0⟩

/-! ## The schema migration `posts/migrations/0006_follow.py` -/

/-- Deletion behavior of a foreign key, `django.db.models.deletion`. -/
inductive OnDelete
  | cascade
  | protect
  | setNull
deriving DecidableEq, Repr

/-- A table-level constraint a model declaration could carry: uniqueness
over a tuple of column names, or a bar on rows whose `user` equals
`author`. -/
inductive Constraint
  | uniqueTogether (fields : List String)
  | noSelfFollow
deriving DecidableEq, Repr

/-- A column declaration of a migration's `CreateModel` operation. -/
inductive MField
  | autoPK (name : String)
  | foreignKey (name : String) (target : String) (onDel : OnDelete)
      (relatedName : String)
deriving DecidableEq, Repr

/-- A schema operation of a migration step. -/
inductive Operation
  | createModel (name : String) (fields : List MField)
      (constraints : List Constraint)
  | deleteModel (name : String)
  | addField (model : String) (field : MField)
  | removeField (model : String) (fieldName : String)
deriving DecidableEq, Repr

/-- A declared dependency of a migration step: the swappable external
User-identity schema, or a named prior step of an app. -/
inductive Dependency
  | swappable (setting : String)
  | onMigration (app : String) (name : String)
deriving DecidableEq, Repr

/-- A migration step: its declared dependencies and its operations. -/
structure Migration where
  dependencies : List Dependency
  operations : List Operation
deriving DecidableEq, Repr

/-- Embedded from `posts/migrations/0006_follow.py`: depends on the
swappable `AUTH_USER_MODEL` and on `('posts', '0005_comment')`; its sole
operation creates the `Follow` model with an auto primary key `id` and
two cascading foreign keys to the User model, `author` with related
name "following" and `user` with related name "follower"; the source
declares no model options, hence the empty constraint list. -/
def migration_0006_follow : Migration :=
  ⟨[Dependency.swappable "AUTH_USER_MODEL",
    Dependency.onMigration "posts" "0005_comment"],
   [Operation.createModel "Follow"
      [MField.autoPK "id",
       MField.foreignKey "author" "AUTH_USER_MODEL" OnDelete.cascade "following",
       MField.foreignKey "user" "AUTH_USER_MODEL" OnDelete.cascade "follower"]
      []]⟩

/-- An operation is additive when it only creates schema objects and
never removes or rewrites existing ones. -/
def Operation.isAdditive : Operation → Bool
  | Operation.createModel _ _ _ => true
  | Operation.addField _ _ => true
  | Operation.deleteModel _ => false
  | Operation.removeField _ _ => false

/-- A row of the Follow table: `user` follows `author`. -/
structure FollowRow where
  user : UserId
  author : UserId
deriving DecidableEq, Repr

/-- Whether a list of Follow rows satisfies one declared constraint. -/
def rowsSatisfy (rows : List FollowRow) : Constraint → Bool
  | Constraint.uniqueTogether fields =>
    if fields = ["user", "author"] then
      (rows.map (fun r => (r.user, r.author))).Nodup
    else true
  | Constraint.noSelfFollow => rows.all (fun r => r.user != r.author)

/-- The constraints the migration declares on the `Follow` model:
collected from every `CreateModel "Follow"` operation of the step. -/
def followConstraints (m : Migration) : List Constraint :=
  m.operations.foldr (fun op acc =>
    match op with
    | Operation.createModel n _ cs => if n = "Follow" then cs ++ acc else acc
    | _ => acc) []

/-- A Follow-table state is accepted by the declared schema when it
satisfies every constraint the migration declares on `Follow`. -/
def followAccepted (rows : List FollowRow) : Bool :=
  (followConstraints migration_0006_follow).all (rowsSatisfy rows)

/-- The schema state a migration executor acts on: the set of already
applied steps (app, name), the set of applied external swappable
schemas, and the created tables. -/
structure SchemaState where
  applied : List (String × String)
  appliedExternal : List String
  tables : List String
deriving DecidableEq, Repr

/-- Whether a declared dependency is satisfied in a schema state. -/
def depSatisfied (st : SchemaState) : Dependency → Bool
  | Dependency.swappable s => st.appliedExternal.contains s
  | Dependency.onMigration app name => st.applied.contains (app, name)

/-- Effect of one schema operation on the table set. -/
def applyOp (st : SchemaState) : Operation → SchemaState
  | Operation.createModel n _ _ => ⟨st.applied, st.appliedExternal, st.tables ++ [n]⟩
  | Operation.deleteModel n =>
    ⟨st.applied, st.appliedExternal, st.tables.filter (fun t => t ≠ n)⟩
  | Operation.addField _ _ => st
  | Operation.removeField _ _ => st

/-- Modelled from the spec: the migration executor (external to the
reviewed slice) applies a step only when every declared dependency has
already been applied; otherwise the run is fatal and aborts before any
schema state is mutated, which the error result captures: no successor
state is produced. -/
def applyStep (app name : String) (m : Migration) (st : SchemaState) :
    Except String SchemaState :=
  if m.dependencies.all (depSatisfied st) then
    Except.ok
      ⟨(m.operations.foldl applyOp st).applied ++ [(app, name)],
       (m.operations.foldl applyOp st).appliedExternal,
       (m.operations.foldl applyOp st).tables⟩
  else
    Except.error "unapplied dependency"

/-! ## Helper lemmas -/

lemma latestStep_lt (key : α → Nat) (p : α) :
    ∀ (l : List α) (acc : Option α),
      (∀ q ∈ l, key q < key p) →
      (∀ a, acc = some a → key a < key p) →
      ∀ a, l.foldl (latestStep key) acc = some a → key a < key p := by
  intro l
  induction l with
  | nil =>
    intro acc _ hacc a ha
    exact hacc a ha
  | cons x xs ih =>
    intro acc hl hacc a ha
    refine ih (latestStep key acc x) (fun q hq => hl q (List.mem_cons_of_mem x hq)) ?_ a ha
    intro b hb
    have hx : key x < key p := hl x (List.mem_cons_self x xs)
    cases acc with
    | none =>
      simp only [latestStep] at hb
      cases hb
      exact hx
    | some c =>
      have hc : key c < key p := hacc c rfl
      simp only [latestStep] at hb
      split at hb <;> (cases hb)
      · exact hx
      · exact hc

lemma latestBy_append_max (key : α → Nat) (l : List α) (p : α)
    (h : ∀ q ∈ l, key q < key p) :
    latestBy key (l ++ [p]) = some p := by
  unfold latestBy
  rw [List.foldl_append]
  rcases hfold : l.foldl (latestStep key) (none : Option α) with _ | a
  · simp [latestStep]
  · have ha : key a < key p :=
      latestStep_lt key p l none h (by intro b hb; cases hb) a hfold
    simp [latestStep, ha]

lemma postsAgree_refl (p : Post) : postsAgree p p = true := by
  simp [postsAgree]

lemma unexpected_append (l extra : List Post) :
    unexpected_posts_not_changed l (l ++ extra) = true := by
  unfold unexpected_posts_not_changed
  induction l with
  | nil => simp
  | cons x xs ih =>
    simp only [List.cons_append, List.zip_cons_cons, List.all_cons, ih,
      postsAgree_refl, Bool.and_self]

lemma unexpected_take (l : List Post) (k : Nat) :
    unexpected_posts_not_changed l (l.take k) = true := by
  unfold unexpected_posts_not_changed
  induction l generalizing k with
  | nil => simp
  | cons x xs ih =>
    cases k with
    | zero => simp
    | succ k =>
      simp only [List.take_succ_cons, List.zip_cons_cons, List.all_cons,
        postsAgree_refl, Bool.true_and]
      exact ih k

lemma find?_update (pid : Nat) (p2 : Post) (h2 : p2.id = pid) :
    ∀ (l : List Post) (p : Post), l.find? (fun q => q.id == pid) = some p →
      (l.map (fun q => if q.id == pid then p2 else q)).find?
        (fun q => q.id == pid) = some p2 := by
  intro l
  induction l with
  | nil => intro p hp; cases hp
  | cons x xs ih =>
    intro p hp
    by_cases hx : (x.id == pid) = true
    · simp only [List.map_cons, if_pos hx]
      have hpos : (p2.id == pid) = true := by simp [h2]
      exact List.find?_cons_of_pos _ hpos
    · have hxf : (x.id == pid) = false := by simpa using hx
      rw [List.find?_cons_of_neg _ (by simp [hxf])] at hp
      simp only [List.map_cons, hxf, if_neg (by simp [hxf] : ¬ ((x.id == pid) = true))]
      rw [List.find?_cons_of_neg _ (by simp [hxf])]
      exact ih p hp

lemma unexpected_iff (before : List Post) : ∀ (after : List Post),
    unexpected_posts_not_changed before after = true ↔
      ∀ (i : Nat) (h1 : i < before.length) (h2 : i < after.length),
        postsAgree (before.get ⟨i, h1⟩) (after.get ⟨i, h2⟩) = true := by
  induction before with
  | nil =>
    intro after
    simp [unexpected_posts_not_changed]
  | cons x xs ih =>
    intro after
    cases after with
    | nil =>
      simp [unexpected_posts_not_changed]
    | cons y ys =>
      constructor
      · intro h i h1 h2
        have hall := h
        simp only [unexpected_posts_not_changed, List.zip_cons_cons,
          List.all_cons, Bool.and_eq_true] at hall
        cases i with
        | zero => exact hall.1
        | succ j =>
          have hrec := (ih ys).mp hall.2
          exact hrec j (Nat.lt_of_succ_lt_succ h1) (Nat.lt_of_succ_lt_succ h2)
      · intro h
        simp only [unexpected_posts_not_changed, List.zip_cons_cons,
          List.all_cons, Bool.and_eq_true]
        refine ⟨h 0 (Nat.succ_pos _) (Nat.succ_pos _), ?_⟩
        refine (ih ys).mpr ?_
        intro j hj1 hj2
        exact h (j + 1) (Nat.succ_lt_succ hj1) (Nat.succ_lt_succ hj2)

/-! ## Claim theorems -/

/-- Claim C1: an authenticated `post_create` call with valid text — for
any supplied group and image — grows the Post table by exactly one row,
the new row's author is the caller and its group equals the supplied
one, hence null when none was supplied, and every pre-existing row is
unchanged in id, text, pub_date, author, group and image; the witness
instantiates the concrete scenario of `test_adding_post_to_db`:
15 posts for "auth" in "test-slug", then text "Тестовый пост". -/
theorem create_post_authenticated_adds_exactly_one (u : UserId)
    (text : String) (group : Option Nat) (image : Option String) (s : Store)
    (hWF : ∀ q ∈ s.posts, q.id < s.nextPostId) :
    (create_post (some u) text group image s).1.posts.length = s.posts.length + 1 ∧
    (create_post (some u) text group image s).1.posts.take s.posts.length = s.posts ∧
    unexpected_posts_not_changed s.posts
      (create_post (some u) text group image s).1.posts = true ∧
    ∃ p, latestPost (create_post (some u) text group image s).1.posts = some p ∧
      p.text = text ∧ p.author = u ∧ p.group = group := by
  have hposts : (create_post (some u) text group image s).1.posts
      = s.posts ++ [⟨s.nextPostId, text, s.now, u, group, image.map storedImagePath⟩] := rfl
  refine ⟨?_, ?_, ?_, ?_⟩
  · rw [hposts]; simp
  · rw [hposts]; exact List.take_left s.posts _
  · rw [hposts]; exact unexpected_append s.posts _
  · refine ⟨⟨s.nextPostId, text, s.now, u, group, image.map storedImagePath⟩, ?_, rfl, rfl, rfl⟩
    rw [hposts]
    exact latestBy_append_max (fun p => p.id) s.posts
      ⟨s.nextPostId, text, s.now, u, group, image.map storedImagePath⟩ hWF

/-- Witness for C1 at the concrete scenario of `test_adding_post_to_db`:
the setUp store holds 15 posts, its keys are below the counter, and the
conclusion of the claim theorem holds for submitting "Тестовый пост"
as "auth". -/
theorem create_post_authenticated_adds_exactly_one_witness :
    setUpStore.posts.length = 15 ∧
    (∀ q ∈ setUpStore.posts, q.id < setUpStore.nextPostId) ∧
    ((create_post (some "auth") "Тестовый пост" none none setUpStore).1.posts.length
        = setUpStore.posts.length + 1 ∧
      (create_post (some "auth") "Тестовый пост" none none setUpStore).1.posts.take
        setUpStore.posts.length = setUpStore.posts ∧
      unexpected_posts_not_changed setUpStore.posts
        (create_post (some "auth") "Тестовый пост" none none setUpStore).1.posts = true ∧
      ∃ p, latestPost
          (create_post (some "auth") "Тестовый пост" none none setUpStore).1.posts
            = some p ∧
        p.text = "Тестовый пост" ∧ p.author = "auth" ∧ p.group = none) :=
  ⟨by decide, by decide,
    create_post_authenticated_adds_exactly_one "auth" "Тестовый пост" none none
      setUpStore (by decide)⟩

/-- Claim C2: every mutation attempt by an anonymous caller leaves the
entity store — Post and Comment tables, counts and all field contents —
exactly as it was, and the failure is represented as an authorization
error value rather than an uncaught fault. -/
theorem anonymous_mutation_attempts_leave_store_unchanged
    (text : String) (group : Option Nat) (image : Option String)
    (post_id : Nat) (s : Store) :
    (create_post none text group image s).1 = s ∧
    (create_post none text group image s).2 = Except.error CmdError.authorization ∧
    (edit_post none post_id text group s).1 = s ∧
    (edit_post none post_id text group s).2 = Except.error CmdError.authorization ∧
    (add_comment none post_id text s).1 = s ∧
    (add_comment none post_id text s).2 = Except.error CmdError.authorization :=
  ⟨rfl, rfl, rfl, rfl, rfl, rfl⟩

/-- Counterexample to claim C4 as stated: when a row with the submitted
text already exists — here `anonTextStore` holds a post whose text is
"Тестовый пост от guest_client" — the anonymous attempt leaves the
table unchanged, so afterwards a Post row with the submitted text does
exist, refuting "no Post row in the table has text equal to the
submitted text". -/
theorem create_post_anonymous_submitted_text_can_preexist :
    ¬ (∀ q ∈ (create_post none "Тестовый пост от guest_client" none none
          anonTextStore).1.posts,
        q.text ≠ "Тестовый пост от guest_client") := by
  decide

/-- Claim C4 as amended: for every anonymous `post_create` attempt the
Post table (count and contents) is unchanged, and — provided no
pre-existing row already had the submitted text — afterwards no Post
row has text equal to the submitted text. -/
theorem create_post_anonymous_unchanged_no_new_text
    (text : String) (group : Option Nat) (image : Option String) (s : Store)
    (h : ∀ q ∈ s.posts, q.text ≠ text) :
    (create_post none text group image s).1.posts.length = s.posts.length ∧
    (create_post none text group image s).1 = s ∧
    ∀ q ∈ (create_post none text group image s).1.posts, q.text ≠ text :=
  ⟨rfl, rfl, h⟩

/-- Witness for the amended C4 at the scenario of
`test_anonymous_editing_post_in_db`: none of the 15 setUp posts carries
the text "Тестовый пост от guest_client" the guest submits, and the
attempt leaves the table without any row of that text. -/
theorem create_post_anonymous_unchanged_no_new_text_witness :
    (∀ q ∈ setUpStore.posts, q.text ≠ "Тестовый пост от guest_client") ∧
    ((create_post none "Тестовый пост от guest_client" none none
        setUpStore).1.posts.length = setUpStore.posts.length ∧
      (create_post none "Тестовый пост от guest_client" none none setUpStore).1
          = setUpStore ∧
      ∀ q ∈ (create_post none "Тестовый пост от guest_client" none none
          setUpStore).1.posts,
        q.text ≠ "Тестовый пост от guest_client") :=
  ⟨by decide,
    create_post_anonymous_unchanged_no_new_text
      "Тестовый пост от guest_client" none none setUpStore (by decide)⟩

/-- Claim C3: an authenticated `post_edit` by the post's author — for
any submitted group, kept, changed or omitted — sets the target row's
text and group to the submitted values while keeping its pub_date,
author and image, leaves the total Post count unchanged, leaves every
other row unchanged in all fields, and once the group is reassigned
away from the previous one the post no longer appears under the
previous group's reverse relation. -/
theorem edit_post_by_author_updates_only_target (u : UserId) (post_id : Nat)
    (text : String) (g : Option Nat) (p : Post) (s : Store)
    (hfind : s.posts.find? (fun q => q.id == post_id) = some p)
    (hauth : p.author = u) :
    (edit_post (some u) post_id text g s).1.posts.length = s.posts.length ∧
    (edit_post (some u) post_id text g s).1.posts.find?
        (fun q => q.id == post_id)
      = some ⟨p.id, text, p.pub_date, p.author, g, p.image⟩ ∧
    (∀ (i : Nat) (q2 : Post), s.posts[i]? = some q2 → q2.id ≠ post_id →
      (edit_post (some u) post_id text g s).1.posts[i]? = some q2) ∧
    (∀ oldg newg : Nat, p.group = some oldg → g = some newg → newg ≠ oldg →
      ∀ q2 ∈ group_posts oldg (edit_post (some u) post_id text g s).1,
        q2.id ≠ post_id) := by
  have hpid : (p.id == post_id) = true := by
    have hps := List.find?_some hfind
    simpa using hps
  have hpideq : p.id = post_id := eq_of_beq hpid
  have hred : (edit_post (some u) post_id text g s).1.posts
      = s.posts.map (fun q => if q.id == post_id then
          (⟨p.id, text, p.pub_date, p.author, g, p.image⟩ : Post) else q) := by
    simp [edit_post, hfind, hauth]
  refine ⟨?_, ?_, ?_, ?_⟩
  · rw [hred]; exact List.length_map _ _
  · rw [hred]
    exact find?_update post_id
      ⟨p.id, text, p.pub_date, p.author, g, p.image⟩ hpideq s.posts p hfind
  · intro i q2 hq2 hneq
    have hq2f : (q2.id == post_id) = false := beq_eq_false_iff_ne.mpr hneq
    rw [hred, List.getElem?_map, hq2]
    have hnc : ¬ ((q2.id == post_id) = true) := by simp [hq2f]
    simp [if_neg hnc]
    intro hc
    exact absurd hc hneq
  · intro oldg newg _ hgnew hne q2 hq2
    subst hgnew
    unfold group_posts at hq2
    rw [hred] at hq2
    rcases List.mem_filter.mp hq2 with ⟨hmem, hgrp⟩
    rcases List.mem_map.mp hmem with ⟨orig, _, heq⟩
    by_cases ho : (orig.id == post_id) = true
    · rw [if_pos ho] at heq
      rw [← heq] at hgrp
      have : newg = oldg := by simpa using hgrp
      exact absurd this hne
    · have hof : (orig.id == post_id) = false := by simpa using ho
      rw [if_neg (by simp [hof] : ¬ ((orig.id == post_id) = true))] at heq
      rw [← heq]
      intro hcontra
      rw [hcontra] at hof
      simp at hof

/-- Witness for C3 at the concrete scenario of `test_editing_post_in_db`:
the 16th post "Тестовый пост" of "auth" in group "test-slug" is edited
to text "Тестовый пост, обновленный!" and the new group. -/
theorem edit_post_by_author_updates_only_target_witness :
    (editScenarioStore.posts.find? (fun q => q.id == 16) = some editTargetPost) ∧
    (editTargetPost.author = "auth") ∧
    ((edit_post (some "auth") 16 "Тестовый пост, обновленный!" (some newGroup.id)
        editScenarioStore).1.posts.length = editScenarioStore.posts.length ∧
      (edit_post (some "auth") 16 "Тестовый пост, обновленный!" (some newGroup.id)
          editScenarioStore).1.posts.find? (fun q => q.id == 16)
        = some ⟨editTargetPost.id, "Тестовый пост, обновленный!",
            editTargetPost.pub_date, editTargetPost.author, some newGroup.id,
            editTargetPost.image⟩ ∧
      (∀ (i : Nat) (q2 : Post), editScenarioStore.posts[i]? = some q2 →
        q2.id ≠ 16 →
        (edit_post (some "auth") 16 "Тестовый пост, обновленный!"
          (some newGroup.id) editScenarioStore).1.posts[i]? = some q2) ∧
      (∀ oldg newg : Nat, editTargetPost.group = some oldg →
        (some newGroup.id : Option Nat) = some newg → newg ≠ oldg →
        ∀ q2 ∈ group_posts oldg
            (edit_post (some "auth") 16 "Тестовый пост, обновленный!"
              (some newGroup.id) editScenarioStore).1,
          q2.id ≠ 16)) :=
  ⟨by decide, by decide,
    edit_post_by_author_updates_only_target "auth" 16
      "Тестовый пост, обновленный!" (some newGroup.id) editTargetPost
      editScenarioStore (by decide) (by decide)⟩

/-- Claim C5: an authenticated `add_comment` on an existing post inserts
exactly one Comment row referencing that post with the caller as
author; the Comment count rises by one and the latest comment carries
the submitted text. -/
theorem add_comment_authenticated_inserts_exactly_one (u : UserId)
    (post_id : Nat) (text : String) (s : Store)
    (hWF : ∀ c ∈ s.comments, c.id < s.nextCommentId)
    (hpost : ∃ q ∈ s.posts, q.id = post_id) :
    (add_comment (some u) post_id text s).1.comments
        = s.comments ++ [⟨s.nextCommentId, text, s.now, u, post_id⟩] ∧
    (add_comment (some u) post_id text s).1.comments.length
        = s.comments.length + 1 ∧
    (add_comment (some u) post_id text s).1.posts = s.posts ∧
    ∃ c, latestComment (add_comment (some u) post_id text s).1.comments = some c ∧
      c.text = text ∧ c.author = u ∧ c.post = post_id := by
  refine ⟨rfl, by simp [add_comment], rfl, ?_⟩
  refine ⟨⟨s.nextCommentId, text, s.now, u, post_id⟩, ?_, rfl, rfl, rfl⟩
  have hc : (add_comment (some u) post_id text s).1.comments
      = s.comments ++ [⟨s.nextCommentId, text, s.now, u, post_id⟩] := rfl
  rw [hc]
  exact latestBy_append_max (fun c => c.id) s.comments
    ⟨s.nextCommentId, text, s.now, u, post_id⟩ hWF

/-- Witness for C5 at the concrete scenario of
`test_correct_adding_comment_in_db`: "Author" comments on their own
post with text "Тестовый комментарий от authorized_client". -/
theorem add_comment_authenticated_inserts_exactly_one_witness :
    (∀ c ∈ commentScenarioStore.comments, c.id < commentScenarioStore.nextCommentId) ∧
    (∃ q ∈ commentScenarioStore.posts, q.id = 1) ∧
    ((add_comment (some "Author") 1 "Тестовый комментарий от authorized_client"
        commentScenarioStore).1.comments
      = commentScenarioStore.comments ++
          [⟨commentScenarioStore.nextCommentId,
            "Тестовый комментарий от authorized_client",
            commentScenarioStore.now, "Author", 1⟩] ∧
      (add_comment (some "Author") 1 "Тестовый комментарий от authorized_client"
          commentScenarioStore).1.comments.length
        = commentScenarioStore.comments.length + 1 ∧
      (add_comment (some "Author") 1 "Тестовый комментарий от authorized_client"
          commentScenarioStore).1.posts = commentScenarioStore.posts ∧
      ∃ c, latestComment
          (add_comment (some "Author") 1
            "Тестовый комментарий от authorized_client"
            commentScenarioStore).1.comments = some c ∧
        c.text = "Тестовый комментарий от authorized_client" ∧
        c.author = "Author" ∧ c.post = 1) :=
  ⟨by decide, by decide,
    add_comment_authenticated_inserts_exactly_one "Author" 1
      "Тестовый комментарий от authorized_client" commentScenarioStore
      (by decide) (by decide)⟩

/-- Claim C6: an authenticated `post_create` with text "Тестовый текст"
and a small GIF named small.gif grows the Post table by one, leaves
every pre-existing row unchanged, and afterwards exactly one Post has
image "posts/small.gif" (provided no pre-existing row already carried
that path, as in the fresh test fixture). -/
theorem create_post_with_image_stores_path (u : UserId) (s : Store)
    (himg : ∀ q ∈ s.posts, q.image ≠ some "posts/small.gif") :
    (create_post (some u) "Тестовый текст" none (some "small.gif") s).1.posts.length
        = s.posts.length + 1 ∧
    ((create_post (some u) "Тестовый текст" none (some "small.gif") s).1.posts.filter
        (fun q => q.image == some "posts/small.gif")).length = 1 ∧
    (create_post (some u) "Тестовый текст" none (some "small.gif") s).1.posts.take
        s.posts.length = s.posts ∧
    unexpected_posts_not_changed s.posts
      (create_post (some u) "Тестовый текст" none (some "small.gif") s).1.posts
        = true := by
  have hposts : (create_post (some u) "Тестовый текст" none (some "small.gif") s).1.posts
      = s.posts ++
          [⟨s.nextPostId, "Тестовый текст", s.now, u, none, some "posts/small.gif"⟩] := rfl
  refine ⟨?_, ?_, ?_, ?_⟩
  · rw [hposts]; simp
  · rw [hposts, List.filter_append]
    have hnil : s.posts.filter (fun q => q.image == some "posts/small.gif") = [] := by
      refine List.filter_eq_nil_iff.mpr ?_
      intro a ha
      simpa using himg a ha
    rw [hnil]
    simp
  · rw [hposts]; exact List.take_left s.posts _
  · rw [hposts]; exact unexpected_append s.posts _

/-- Witness for C6 at the concrete scenario of
`test_adding_post_with_img_to_db`: the 15 setUp posts carry no image,
so after the upload exactly one post has image "posts/small.gif". -/
theorem create_post_with_image_stores_path_witness :
    (∀ q ∈ setUpStore.posts, q.image ≠ some "posts/small.gif") ∧
    ((create_post (some "auth") "Тестовый текст" none (some "small.gif")
        setUpStore).1.posts.length = setUpStore.posts.length + 1 ∧
      ((create_post (some "auth") "Тестовый текст" none (some "small.gif")
          setUpStore).1.posts.filter
          (fun q => q.image == some "posts/small.gif")).length = 1 ∧
      (create_post (some "auth") "Тестовый текст" none (some "small.gif")
          setUpStore).1.posts.take setUpStore.posts.length = setUpStore.posts ∧
      unexpected_posts_not_changed setUpStore.posts
        (create_post (some "auth") "Тестовый текст" none (some "small.gif")
          setUpStore).1.posts = true) :=
  ⟨by decide, create_post_with_image_stores_path "auth" setUpStore (by decide)⟩

/-- Claim C7: the observed migration step is additive only — its sole
operation creates the Follow table with exactly the three declared
columns (auto primary key id, cascading foreign key author with inverse
relation "following", cascading foreign key user with inverse relation
"follower") — and applying it when its dependencies are met only
appends the Follow table and the step record, mutating nothing else. -/
theorem migration_0006_follow_creates_follow_only :
    migration_0006_follow.operations =
      [Operation.createModel "Follow"
        [MField.autoPK "id",
         MField.foreignKey "author" "AUTH_USER_MODEL" OnDelete.cascade "following",
         MField.foreignKey "user" "AUTH_USER_MODEL" OnDelete.cascade "follower"]
        []] ∧
    migration_0006_follow.operations.all Operation.isAdditive = true ∧
    ∀ st : SchemaState,
      migration_0006_follow.dependencies.all (depSatisfied st) = true →
      applyStep "posts" "0006_follow" migration_0006_follow st
        = Except.ok ⟨st.applied ++ [("posts", "0006_follow")],
            st.appliedExternal, st.tables ++ ["Follow"]⟩ := by
  refine ⟨rfl, rfl, ?_⟩
  intro st hdep
  have hdep2 : depSatisfied st (Dependency.swappable "AUTH_USER_MODEL") = true ∧
      depSatisfied st (Dependency.onMigration "posts" "0005_comment") = true := by
    simpa [migration_0006_follow] using hdep
  simp [applyStep, applyOp, migration_0006_follow, hdep2.1, hdep2.2]

/-- Witness for C7: in a state where both declared dependencies are
already applied, the step only adds the Follow table. -/
theorem migration_0006_follow_creates_follow_only_witness :
    migration_0006_follow.dependencies.all
      (depSatisfied ⟨[("posts", "0005_comment")], ["AUTH_USER_MODEL"], []⟩) = true ∧
    applyStep "posts" "0006_follow" migration_0006_follow
        ⟨[("posts", "0005_comment")], ["AUTH_USER_MODEL"], []⟩
      = Except.ok ⟨[("posts", "0005_comment"), ("posts", "0006_follow")],
          ["AUTH_USER_MODEL"], ["Follow"]⟩ :=
  ⟨by decide,
    (migration_0006_follow_creates_follow_only).2.2
      ⟨[("posts", "0005_comment")], ["AUTH_USER_MODEL"], []⟩ (by decide)⟩

/-- Claim C8: the Follow model declares no uniqueness constraint on
(user, author) and no anti-self-follow constraint, so the declared
schema accepts a state with two identical Follow rows and a state with
a self-follow row — indeed it accepts every list of Follow rows. -/
theorem follow_schema_accepts_duplicate_and_self_follow :
    followConstraints migration_0006_follow = [] ∧
    followAccepted [⟨"leo", "boris"⟩, ⟨"leo", "boris"⟩] = true ∧
    followAccepted [⟨"leo", "leo"⟩] = true ∧
    ∀ rows : List FollowRow, followAccepted rows = true :=
  ⟨rfl, rfl, rfl, fun _ => rfl⟩

/-- Claim C9: the Follow step declares exactly the dependencies on the
swappable User-identity schema and on the prior step ('posts',
'0005_comment'), and applying the step in a state where some declared
dependency is not yet applied is fatal: the executor yields an error
and produces no successor schema state, so nothing is mutated. -/
theorem migration_0006_follow_gate_on_dependencies (st : SchemaState)
    (h : migration_0006_follow.dependencies.all (depSatisfied st) = false) :
    migration_0006_follow.dependencies =
      [Dependency.swappable "AUTH_USER_MODEL",
       Dependency.onMigration "posts" "0005_comment"] ∧
    applyStep "posts" "0006_follow" migration_0006_follow st
      = Except.error "unapplied dependency" ∧
    ∀ st2 : SchemaState,
      applyStep "posts" "0006_follow" migration_0006_follow st ≠ Except.ok st2 := by
  refine ⟨rfl, ?_, ?_⟩
  · simp [applyStep, h]
  · intro st2
    simp [applyStep, h]

/-- Witness for C9: in the empty schema state no dependency is applied
and the step is refused with no successor state. -/
theorem migration_0006_follow_gate_on_dependencies_witness :
    migration_0006_follow.dependencies.all
      (depSatisfied ⟨[], [], []⟩) = false ∧
    (migration_0006_follow.dependencies =
      [Dependency.swappable "AUTH_USER_MODEL",
       Dependency.onMigration "posts" "0005_comment"] ∧
    applyStep "posts" "0006_follow" migration_0006_follow ⟨[], [], []⟩
      = Except.error "unapplied dependency" ∧
    ∀ st2 : SchemaState,
      applyStep "posts" "0006_follow" migration_0006_follow ⟨[], [], []⟩
        ≠ Except.ok st2) :=
  ⟨by decide, migration_0006_follow_gate_on_dependencies ⟨[], [], []⟩ (by decide)⟩

/-- Claim C10: the whole-table unchanged check
`unexpected_posts_not_changed` compares the before and after sequences
positionally up to the length of the shorter one — it succeeds exactly
when every index below that length pairs rows agreeing on id, text,
pub_date, author, group and image — and it never examines rows beyond
that length, so a table that gained or lost trailing rows still
passes. -/
theorem unexpected_posts_not_changed_zip_semantics
    (posts_before posts_after : List Post) :
    (unexpected_posts_not_changed posts_before posts_after = true ↔
      ∀ (i : Nat) (h1 : i < posts_before.length) (h2 : i < posts_after.length),
        postsAgree (posts_before.get ⟨i, h1⟩) (posts_after.get ⟨i, h2⟩) = true) ∧
    (∀ extra : List Post,
      unexpected_posts_not_changed posts_before (posts_before ++ extra) = true) ∧
    (∀ k : Nat,
      unexpected_posts_not_changed posts_before (posts_before.take k) = true) :=
  ⟨unexpected_iff posts_before posts_after,
    fun extra => unexpected_append posts_before extra,
    fun k => unexpected_take posts_before k⟩

/-- Witness for C10: on the concrete setUp table the check passes both
when the after-sequence gained a trailing row and when it lost five
trailing rows. -/
theorem unexpected_posts_not_changed_zip_semantics_witness :
    unexpected_posts_not_changed setUpPosts (setUpPosts ++ [editTargetPost]) = true ∧
    unexpected_posts_not_changed setUpPosts (setUpPosts.take 10) = true :=
  ⟨(unexpected_posts_not_changed_zip_semantics setUpPosts
      (setUpPosts ++ [editTargetPost])).2.1 [editTargetPost],
    (unexpected_posts_not_changed_zip_semantics setUpPosts
      (setUpPosts.take 10)).2.2 10⟩

end Yatube
